import Mathlib

/-!
Verification development for the AKO (Avi Kubernetes Operator) ingestion layer,
full-sync / delete lifecycle and name derivation, shallowly embedded from
`internal/k8s/controller.go`, `internal/k8s/ako_init.go` and `internal/lib/lib.go`.
-/

namespace AKO

/-! ## Byte-level preliminaries

Go strings are byte sequences; `len` and the hash functions operate on UTF-8
bytes.  We model a Go string's bytes by UTF-8-encoding the Lean string.
-/

/-- UTF-8 encoding of one character, as a list of byte values. -/
def charUtf8 (c : Char) : List Nat :=
  let n := c.toNat
  if n < 128 then [n]
  else if n < 2048 then [192 ||| (n >>> 6), 128 ||| (n &&& 63)]
  else if n < 65536 then
    [224 ||| (n >>> 12), 128 ||| ((n >>> 6) &&& 63), 128 ||| (n &&& 63)]
  else
    [240 ||| (n >>> 18), 128 ||| ((n >>> 12) &&& 63),
     128 ||| ((n >>> 6) &&& 63), 128 ||| (n &&& 63)]

/-- The UTF-8 bytes of a string (the bytes Go's `len` and hashes see). -/
def strBytes (s : String) : List Nat :=
  (s.data.map charUtf8).flatten

/-- Byte length of a string, i.e. Go's `len(s)`. -/
def goLen (s : String) : Nat :=
  (strBytes s).length

/-- Modelled from the spec: `utils.Hash` (package `pkg/utils` is outside `src/`)
is the 32-bit FNV-1a hash, per the spec's sharding description
(worker index = FNV-1a(namespace) mod N). -/
def fnv1a32Bytes (bs : List Nat) : Nat :=
  bs.foldl (fun h b => ((h ^^^ b) * 16777619) % 4294967296) 2166136261

/-- FNV-1a 32-bit hash of a string's UTF-8 bytes. -/
def fnv1a32 (s : String) : Nat :=
  fnv1a32Bytes (strBytes s)

/-! ## SHA-1 (`crypto/sha1` as used by `lib.Encode`) -/

/-- Left rotation of a 32-bit word. -/
def rotl32 (x n : Nat) : Nat :=
  ((x <<< n) % 4294967296) ||| (x >>> (32 - n))

/-- Big-endian 32-bit word from four bytes of a list, starting at index `i`. -/
def be32At (bs : List Nat) (i : Nat) : Nat :=
  ((bs.getD i 0) <<< 24) ||| ((bs.getD (i+1) 0) <<< 16) |||
    ((bs.getD (i+2) 0) <<< 8) ||| bs.getD (i+3) 0

/-- The first sixteen 32-bit words of a 64-byte SHA-1 block. -/
def sha1InitWords (block : List Nat) : List Nat :=
  (List.range 16).map (fun i => be32At block (4*i))

/-- Message-schedule extension: append `k` further words. -/
def sha1Extend : List Nat → Nat → List Nat
  | w, 0 => w
  | w, k+1 =>
    let n := w.length
    let x := rotl32 ((w.getD (n-3) 0) ^^^ (w.getD (n-8) 0) ^^^
      (w.getD (n-14) 0) ^^^ (w.getD (n-16) 0)) 1
    sha1Extend (w ++ [x]) k

/-- SHA-1 working state. -/
structure Sha1State where
  a : Nat
  b : Nat
  c : Nat
  d : Nat
  e : Nat
deriving DecidableEq

/-- SHA-1 round function. -/
def sha1F (i b c d : Nat) : Nat :=
  if i < 20 then (b &&& c) ||| ((b ^^^ 4294967295) &&& d)
  else if i < 40 then b ^^^ c ^^^ d
  else if i < 60 then (b &&& c) ||| (b &&& d) ||| (c &&& d)
  else b ^^^ c ^^^ d

/-- SHA-1 round constant. -/
def sha1K (i : Nat) : Nat :=
  if i < 20 then 1518500249
  else if i < 40 then 1859775393
  else if i < 60 then 2400959708
  else 3395469782

/-- One SHA-1 round. -/
def sha1Step (st : Sha1State) (iw : Nat × Nat) : Sha1State :=
  let t := (rotl32 st.a 5 + sha1F iw.1 st.b st.c st.d + st.e + sha1K iw.1 + iw.2) % 4294967296
  ⟨t, st.a, rotl32 st.b 30, st.c, st.d⟩

/-- Process one 64-byte block. -/
def sha1Block (h : Sha1State) (block : List Nat) : Sha1State :=
  let ws := sha1Extend (sha1InitWords block) 64
  let st := ((List.range 80).zip ws).foldl sha1Step h
  ⟨(h.a + st.a) % 4294967296, (h.b + st.b) % 4294967296,
    (h.c + st.c) % 4294967296, (h.d + st.d) % 4294967296,
    (h.e + st.e) % 4294967296⟩

/-- Big-endian 8-byte encoding of a 64-bit number. -/
def be64 (n : Nat) : List Nat :=
  [(n >>> 56) &&& 255, (n >>> 48) &&& 255, (n >>> 40) &&& 255, (n >>> 32) &&& 255,
   (n >>> 24) &&& 255, (n >>> 16) &&& 255, (n >>> 8) &&& 255, n &&& 255]

/-- SHA-1 padding: 0x80, zeros to 56 mod 64, then the bit length. -/
def sha1Pad (msg : List Nat) : List Nat :=
  msg ++ [128] ++ List.replicate ((119 - msg.length % 64) % 64) 0 ++ be64 (8 * msg.length)

/-- Split a byte list into 64-byte chunks (fuel-driven structural recursion;
the fuel is the list length, an upper bound on the number of chunks). -/
def chunksAux : Nat → List Nat → List (List Nat)
  | 0, _ => []
  | _, [] => []
  | fuel+1, x :: rest => (x :: rest).take 64 :: chunksAux fuel (rest.drop 63)

/-- Split a byte list into 64-byte chunks. -/
def chunks64 (xs : List Nat) : List (List Nat) :=
  chunksAux xs.length xs

/-- Big-endian bytes of a 32-bit word. -/
def word2bytes (w : Nat) : List Nat :=
  [(w >>> 24) &&& 255, (w >>> 16) &&& 255, (w >>> 8) &&& 255, w &&& 255]

/-- SHA-1 digest (20 bytes) of a byte list. -/
def sha1Bytes (msg : List Nat) : List Nat :=
  let st := (chunks64 (sha1Pad msg)).foldl sha1Block
    ⟨1732584193, 4023233417, 2562383102, 271733878, 3285377520⟩
  word2bytes st.a ++ word2bytes st.b ++ word2bytes st.c ++ word2bytes st.d ++ word2bytes st.e

/-- Lowercase hex digit, as produced by Go's `hex.EncodeToString`. -/
def hexDigitChar (n : Nat) : Char :=
  if n < 10 then Char.ofNat (48 + n) else Char.ofNat (87 + n)

/-- Lowercase hex characters of a byte list. -/
def hexBytesChars : List Nat → List Char
  | [] => []
  | b :: rest => hexDigitChar ((b >>> 4) &&& 15) :: hexDigitChar (b &&& 15) :: hexBytesChars rest

/-- Lowercase hex encoding of a byte list (`hex.EncodeToString`). -/
def hexEncode (bs : List Nat) : String :=
  String.mk (hexBytesChars bs)

/-! ## Configuration and constants

Process-wide flags read by the handlers (`lib.GetAdvancedL4`, `lib.UseServicesAPI`,
`lib.GetLayer7Only`, `lib.IsEvhEnabled`, `c.DisableSync`, cluster name, AKO
namespace, namespace-sync filter).  Bundled in one record; the source reads
them from environment variables and globals.
-/

structure Config where
  disableSync : Bool
  advancedL4 : Bool
  servicesAPI : Bool
  layer7Only : Bool
  evhEnabled : Bool
  clusterName : String
  akoNamespace : String
  tenant : String
  nsFilterKey : String
  nsFilterValue : String
  acceptedNamespaces : List String
  numWorkers : Nat
  hasIngressInformer : Bool
  hasRouteInformer : Bool
  hasServiceInformer : Bool
deriving DecidableEq

/-- Modelled from the spec: key kinds of §3 — the constants (`utils.Ingress`,
`utils.OshiftRoute`, `utils.L4LBService`, ... ) live in `pkg/utils` and
`lib/constants`, outside `src/`.  The kind string values follow the spec's
`kind ∈ {Ingress, Route, L4LBService, Service, Endpoints, Secret, Pod, Node,
IngressClass, ...}`. -/
def kindIngress : String := "Ingress"

def kindRoute : String := "Route"

def kindL4LBService : String := "L4LBService"

def kindService : String := "Service"

def kindEndpoints : String := "Endpoints"

def kindSecret : String := "Secret"

def kindPod : String := "Pod"

def kindNode : String := "Node"

def kindIngressClass : String := "IngressClass"

def kindGateway : String := "Gateway"

/-- Modelled from the spec: `lib.AviSecret`, the controller's own auth secret
name (`avi-secret`); the constants file is outside `src/`. -/
def AviSecret : String := "avi-secret"

/-- Modelled from the spec: `lib.NsFilterAdd` replay annotation (constant
defined outside `src/`). -/
def NsFilterAdd : String := "NsFilterAdd"

/-- Modelled from the spec: `lib.NsFilterDelete` replay annotation. -/
def NsFilterDelete : String := "NsFilterDelete"

/-- Modelled from the spec: `lib.DuplicateBackends` status error message
(constant defined outside `src/`). -/
def DuplicateBackends : String := "MultipleBackendsWithSameServiceError"

/-- Modelled from the spec: `utils.Bkt` — worker index = FNV-1a(locality key)
mod worker count (`pkg/utils` is outside `src/`). -/
def Bkt (s : String) (numWorkers : Nat) : Nat :=
  if numWorkers = 0 then 0 else fnv1a32 s % numWorkers

/-- `utils.ObjKey`: the `namespace/name` key of a namespaced object. -/
def objKey (ns name : String) : String :=
  ns ++ "/" ++ name

/-- True when a namespace-sync label filter is configured
(`NAMESPACE_SYNC_LABEL_KEY/VALUE` both non-empty). -/
def nsFilteringEnabled (cfg : Config) : Bool :=
  cfg.nsFilterKey != "" && cfg.nsFilterValue != ""

/-- Modelled from the spec: `utils.CheckIfNamespaceAccepted(namespace)`
(one-argument form, `pkg/utils` outside `src/`): membership in the list of
currently valid namespaces; every namespace is accepted when no filter is
configured. -/
def CheckIfNamespaceAccepted (cfg : Config) (ns : String) : Bool :=
  if nsFilteringEnabled cfg then cfg.acceptedNamespaces.contains ns else true

/-- Modelled from the spec: `utils.CheckIfNamespaceAccepted(namespace, labels,
false)` (label form): when a label selector is configured, only namespaces
whose labels match are admitted. -/
def CheckIfNamespaceAcceptedWithLabels (cfg : Config) (lbls : List (String × String)) : Bool :=
  if nsFilteringEnabled cfg then lbls.contains (cfg.nsFilterKey, cfg.nsFilterValue) else true

/-- Modelled from the spec: `utils.IsServiceNSValid` — L4 namespace filtering
is not applicable for advanced L4 and the services API (comment in the service
handler), otherwise the namespace filter applies. -/
def IsServiceNSValid (cfg : Config) (ns : String) : Bool :=
  if cfg.advancedL4 || cfg.servicesAPI then true else CheckIfNamespaceAccepted cfg ns

/-! ## Name derivation (`internal/lib/lib.go`) -/

/-- Modelled from the spec: `lib.AVI_OBJ_NAME_MAX_LENGTH` (255; constants file
outside `src/`). -/
def AVI_OBJ_NAME_MAX_LENGTH : Nat := 255

/-- `lib.CheckObjectNameLength`: true (and a warning is logged) exactly when
the name's byte length exceeds the maximum. -/
def CheckObjectNameLength (objName : String) : Bool :=
  goLen objName > AVI_OBJ_NAME_MAX_LENGTH

/-- `lib.SetNamePrefix`/`lib.GetNamePrefix`: the global name stem is
`GetClusterName() + "--"`. -/
def namePfxOf (cfg : Config) : String :=
  cfg.clusterName ++ "--"

/-- `lib.Encode`: identity when EVH is off or advanced L4 is on (after a
length check used only for logging); otherwise the cluster prefix followed by
the lowercase hex SHA-1 of the raw name. -/
def Encode (cfg : Config) (s : String) : String :=
  if !cfg.evhEnabled || cfg.advancedL4 then s
  else namePfxOf cfg ++ hexEncode (sha1Bytes (strBytes s))

/-- Go's `strings.ReplaceAll(path, "/", "_")` (single-character pattern). -/
def replaceSlash (s : String) : String :=
  String.mk (s.data.map (fun c => if c = '/' then '_' else c))

/-- `lib.GetSniPoolName`: concatenation of prefix, optional infra-setting
token, namespace, host, path (with `/` replaced by `_`), ingress name and
optional service argument; the length check only logs. -/
def GetSniPoolName (cfg : Config) (ingName ns host path infrasetting : String)
    (args : List String) : String :=
  let path2 := replaceSlash path
  let poolName :=
    if infrasetting != "" then
      namePfxOf cfg ++ infrasetting ++ "-" ++ ns ++ "-" ++ host ++ path2 ++ "-" ++ ingName
    else
      namePfxOf cfg ++ ns ++ "-" ++ host ++ path2 ++ "-" ++ ingName
  match args with
  | svcName :: _ => poolName ++ "-" ++ svcName
  | [] => poolName

/-- `lib.GetModelName`: `namespace/objectName`. -/
def GetModelName (ns objectName : String) : String :=
  ns ++ "/" ++ objectName

/-! ## Watched objects

Fields that the handlers inspect.  Serialised payloads (`Spec`, `Annotations`,
`Subsets`, labels) that the source only ever hashes or deep-compares are
carried in canonical serialised form (`utils.Stringify` / JSON marshalling is
outside `src/`).
-/

structure IngressObj where
  name : String
  ns : String
  resourceVersion : String
  specStr : String
  annotationsStr : String
deriving DecidableEq

structure RouteSpec where
  toSvc : String
  alternateBackends : List String
deriving DecidableEq

/-- Canonical serialisation of a Route spec (models `utils.Stringify`). -/
def stringifyRouteSpec (sp : RouteSpec) : String :=
  "\x7bto:" ++ sp.toSvc ++ ",alt:[" ++ String.intercalate "," sp.alternateBackends ++ "]\x7d"

structure RouteObj where
  name : String
  ns : String
  resourceVersion : String
  spec : RouteSpec
  annotationsStr : String
deriving DecidableEq

structure SecretObj where
  name : String
  ns : String
  resourceVersion : String
  dataStr : String
deriving DecidableEq

structure EndpointsObj where
  name : String
  ns : String
  resourceVersion : String
  subsetsStr : String
deriving DecidableEq

structure ServiceObj where
  name : String
  ns : String
  resourceVersion : String
  svcType : String
  annotationsStr : String
deriving DecidableEq

structure NodeAddress where
  addrType : String
  address : String
deriving DecidableEq

structure NodeObj where
  name : String
  resourceVersion : String
  addresses : List NodeAddress
  podCIDR : String
  labelsStr : String
deriving DecidableEq

structure IngressClassObj where
  name : String
  ns : String
  resourceVersion : String
deriving DecidableEq

structure PodObj where
  name : String
  ns : String
  contentStr : String
deriving DecidableEq

structure NamespaceObj where
  name : String
  resourceVersion : String
  labels : List (String × String)
deriving DecidableEq

structure GatewayObj where
  name : String
  ns : String
deriving DecidableEq

/-- Canonical serialisation of a label map (models `utils.Stringify` on
`map[string]string`; keys in canonical order). -/
def stringifyLabels (lbls : List (String × String)) : String :=
  "\x7b" ++ String.intercalate "," (lbls.map (fun p => p.1 ++ ":" ++ p.2)) ++ "\x7d"

/-! ## Effects

An informer callback's observable actions: enqueueing a key on an ingestion
worker (with the message it logs for that key), publishing a status error,
mutating the valid-namespace list, and the inline status/port-conflict checks
delegated to helpers outside `src/`.
-/

inductive Effect where
  | enqueue (bucket : Nat) (key : String) (msg : String)
  | statusUpdate (key objName ns errMsg : String)
  | addNamespaceToFilter (ns : String)
  | deleteNamespaceFromFilter (ns : String)
  | gatewayStatusCheck (key : String)
  | portConflictCheck (key : String)
deriving DecidableEq

/-- Whether an effect puts a key on the ingestion queue. -/
def Effect.isIngestionEnqueue : Effect → Bool
  | .enqueue _ _ _ => true
  | _ => false

/-- Whether some effect in the list enqueues onto the ingestion queue. -/
def hasIngestionEnqueue (effs : List Effect) : Bool :=
  effs.any Effect.isIngestionEnqueue

/-! ## Update predicates (`controller.go`) -/

/-- `isIngressUpdated`: same ResourceVersion is always dropped; otherwise
admitted when the `Spec` hash or the `Annotations` hash differs. -/
def isIngressUpdated (oldIngress newIngress : IngressObj) : Bool :=
  if oldIngress.resourceVersion == newIngress.resourceVersion then false
  else
    let oldSpecHash := fnv1a32 oldIngress.specStr
    let oldAnnotationHash := fnv1a32 oldIngress.annotationsStr
    let newSpecHash := fnv1a32 newIngress.specStr
    let newAnnotationHash := fnv1a32 newIngress.annotationsStr
    oldSpecHash != newSpecHash || oldAnnotationHash != newAnnotationHash

/-- `isRouteUpdated`: same ResourceVersion is always dropped; otherwise
admitted when the `Spec` hash differs (annotations are not inspected). -/
def isRouteUpdated (oldRoute newRoute : RouteObj) : Bool :=
  if oldRoute.resourceVersion == newRoute.resourceVersion then false
  else
    let oldSpecHash := fnv1a32 (stringifyRouteSpec oldRoute.spec)
    let newSpecHash := fnv1a32 (stringifyRouteSpec newRoute.spec)
    oldSpecHash != newSpecHash

/-- `isNamespaceUpdated`: same ResourceVersion is dropped; otherwise admitted
when the labels hash differs. -/
def isNamespaceUpdated (oldNS newNS : NamespaceObj) : Bool :=
  if oldNS.resourceVersion == newNS.resourceVersion then false
  else fnv1a32 (stringifyLabels oldNS.labels) != fnv1a32 (stringifyLabels newNS.labels)

/-- First `InternalIP` address of a node (loop with break in the source). -/
def firstInternalIP (addrs : List NodeAddress) : String :=
  match addrs.find? (fun a => a.addrType == "InternalIP") with
  | some a => a.address
  | none => ""

/-- `isNodeUpdated`: ResourceVersion, address-list length, first InternalIP,
PodCIDR, labels. -/
def isNodeUpdated (oldNode newNode : NodeObj) : Bool :=
  if oldNode.resourceVersion == newNode.resourceVersion then false
  else if oldNode.addresses.length != newNode.addresses.length then true
  else if firstInternalIP oldNode.addresses != firstInternalIP newNode.addresses then true
  else if oldNode.podCIDR != newNode.podCIDR then true
  else oldNode.labelsStr != newNode.labelsStr

/-- `isServiceLBType`. -/
def isServiceLBType (svcObj : ServiceObj) : Bool :=
  svcObj.svcType == "LoadBalancer"

/-- `validateAviSecret`: false for the controller's own auth secret
(`avi-secret` in the AKO namespace). -/
def validateAviSecret (cfg : Config) (secret : SecretObj) : Bool :=
  if secret.ns == cfg.akoNamespace && secret.name == AviSecret then false else true

/-- `lib.HasValidBackends` inner loop: `svcList` accumulates seen backend
names. -/
def hasValidBackendsAux : List String → List String → Bool
  | _, [] => true
  | svcList, alt :: rest =>
    if svcList.contains alt then false
    else hasValidBackendsAux (alt :: svcList) rest

/-- `lib.HasValidBackends`: false when an alternate backend repeats the
primary backend's name or another alternate backend's name. -/
def HasValidBackends (routeSpec : RouteSpec) : Bool :=
  hasValidBackendsAux [routeSpec.toSvc] routeSpec.alternateBackends

/-! ## Informer event handlers (`SetupEventHandlers` and helpers)

Each handler is a pure function from the delivered object(s) to the list of
effects it performs; every one begins with the `DisableSync` gate, exactly as
in the source.
-/

/-- Endpoints AddFunc. -/
def epAddFunc (cfg : Config) (ep : EndpointsObj) : List Effect :=
  if cfg.disableSync then []
  else
    [Effect.enqueue (Bkt ep.ns cfg.numWorkers) (kindEndpoints ++ "/" ++ objKey ep.ns ep.name) "ADD"]

/-- Endpoints DeleteFunc (after tombstone unwrapping). -/
def epDeleteFunc (cfg : Config) (ep : EndpointsObj) : List Effect :=
  if cfg.disableSync then []
  else
    [Effect.enqueue (Bkt ep.ns cfg.numWorkers) (kindEndpoints ++ "/" ++ objKey ep.ns ep.name) "DELETE"]

/-- Endpoints UpdateFunc: admitted when `Subsets` are deep-unequal. -/
def epUpdateFunc (cfg : Config) (oep cep : EndpointsObj) : List Effect :=
  if cfg.disableSync then []
  else if cep.subsetsStr != oep.subsetsStr then
    [Effect.enqueue (Bkt cep.ns cfg.numWorkers) (kindEndpoints ++ "/" ++ objKey cep.ns cep.name) "UPDATE"]
  else []

/-- The L4 service key effects shared by the service Add/Update handlers:
inline gateway port-conflict checks, then the enqueue. -/
def svcL4Effects (cfg : Config) (svc : ServiceObj) (msg : String) : List Effect :=
  let key := kindL4LBService ++ "/" ++ objKey svc.ns svc.name
  (if cfg.advancedL4 then [Effect.portConflictCheck key] else [])
    ++ (if cfg.servicesAPI then [Effect.portConflictCheck key] else [])
    ++ [Effect.enqueue (Bkt svc.ns cfg.numWorkers) key msg]

/-- Service AddFunc. -/
def svcAddFunc (cfg : Config) (svc : ServiceObj) : List Effect :=
  if cfg.disableSync then []
  else
    if isServiceLBType svc && !cfg.layer7Only then
      if !(IsServiceNSValid cfg svc.ns) then []
      else svcL4Effects cfg svc "ADD"
    else
      if cfg.advancedL4 || !(CheckIfNamespaceAccepted cfg svc.ns) then []
      else
        [Effect.enqueue (Bkt svc.ns cfg.numWorkers) (kindService ++ "/" ++ objKey svc.ns svc.name) "ADD"]

/-- Service DeleteFunc (no inline conflict checks). -/
def svcDeleteFunc (cfg : Config) (svc : ServiceObj) : List Effect :=
  if cfg.disableSync then []
  else
    if isServiceLBType svc && !cfg.layer7Only then
      if !(IsServiceNSValid cfg svc.ns) then []
      else
        [Effect.enqueue (Bkt svc.ns cfg.numWorkers) (kindL4LBService ++ "/" ++ objKey svc.ns svc.name) "DELETE"]
    else
      if cfg.advancedL4 || !(CheckIfNamespaceAccepted cfg svc.ns) then []
      else
        [Effect.enqueue (Bkt svc.ns cfg.numWorkers) (kindService ++ "/" ++ objKey svc.ns svc.name) "DELETE"]

/-- Service UpdateFunc: admitted when the ResourceVersion or the annotations
differ. -/
def svcUpdateFunc (cfg : Config) (oldobj svc : ServiceObj) : List Effect :=
  if cfg.disableSync then []
  else if oldobj.resourceVersion != svc.resourceVersion
      || oldobj.annotationsStr != svc.annotationsStr then
    if isServiceLBType svc && !cfg.layer7Only then
      if !(IsServiceNSValid cfg svc.ns) then []
      else svcL4Effects cfg svc "UPDATE"
    else
      if cfg.advancedL4 || !(CheckIfNamespaceAccepted cfg svc.ns) then []
      else
        [Effect.enqueue (Bkt svc.ns cfg.numWorkers) (kindService ++ "/" ++ objKey svc.ns svc.name) "UPDATE"]
  else []

/-- Secret AddFunc — note: no `validateAviSecret` filter here. -/
def secretAddFunc (cfg : Config) (secret : SecretObj) : List Effect :=
  if cfg.disableSync then []
  else
    [Effect.enqueue (Bkt secret.ns cfg.numWorkers) (kindSecret ++ "/" ++ objKey secret.ns secret.name) "ADD"]

/-- Secret DeleteFunc: filtered through `validateAviSecret`. -/
def secretDeleteFunc (cfg : Config) (secret : SecretObj) : List Effect :=
  if cfg.disableSync then []
  else if validateAviSecret cfg secret then
    [Effect.enqueue (Bkt secret.ns cfg.numWorkers) (kindSecret ++ "/" ++ objKey secret.ns secret.name) "DELETE"]
  else []

/-- Secret UpdateFunc: admitted when the ResourceVersion differs AND the data
deep-differs, and the secret passes `validateAviSecret`. -/
def secretUpdateFunc (cfg : Config) (oldobj secret : SecretObj) : List Effect :=
  if cfg.disableSync then []
  else if oldobj.resourceVersion != secret.resourceVersion
      && oldobj.dataStr != secret.dataStr then
    if validateAviSecret cfg secret then
      [Effect.enqueue (Bkt secret.ns cfg.numWorkers) (kindSecret ++ "/" ++ objKey secret.ns secret.name) "UPDATE"]
    else []
  else []

/-- Ingress AddFunc. -/
def ingressAddFunc (cfg : Config) (ingress : IngressObj) : List Effect :=
  if cfg.disableSync then []
  else if !(CheckIfNamespaceAccepted cfg ingress.ns) then []
  else
    [Effect.enqueue (Bkt ingress.ns cfg.numWorkers) (kindIngress ++ "/" ++ objKey ingress.ns ingress.name) "ADD"]

/-- Ingress DeleteFunc. -/
def ingressDeleteFunc (cfg : Config) (ingress : IngressObj) : List Effect :=
  if cfg.disableSync then []
  else if !(CheckIfNamespaceAccepted cfg ingress.ns) then []
  else
    [Effect.enqueue (Bkt ingress.ns cfg.numWorkers) (kindIngress ++ "/" ++ objKey ingress.ns ingress.name) "DELETE"]

/-- Ingress UpdateFunc. -/
def ingressUpdateFunc (cfg : Config) (oldobj ingress : IngressObj) : List Effect :=
  if cfg.disableSync then []
  else if isIngressUpdated oldobj ingress then
    if !(CheckIfNamespaceAccepted cfg ingress.ns) then []
    else
      [Effect.enqueue (Bkt ingress.ns cfg.numWorkers) (kindIngress ++ "/" ++ objKey ingress.ns ingress.name) "UPDATE"]
  else []

/-- Route AddFunc (`AddRouteEventHandler`): a duplicate-backend status error is
published, and the key is enqueued regardless. -/
def routeAddFunc (cfg : Config) (route : RouteObj) : List Effect :=
  if cfg.disableSync then []
  else if !(CheckIfNamespaceAccepted cfg route.ns) then []
  else
    let key := kindRoute ++ "/" ++ objKey route.ns route.name
    (if !(HasValidBackends route.spec) then
       [Effect.statusUpdate key route.name route.ns DuplicateBackends]
     else [])
      ++ [Effect.enqueue (Bkt route.ns cfg.numWorkers) key "ADD"]

/-- Route DeleteFunc. -/
def routeDeleteFunc (cfg : Config) (route : RouteObj) : List Effect :=
  if cfg.disableSync then []
  else if !(CheckIfNamespaceAccepted cfg route.ns) then []
  else
    [Effect.enqueue (Bkt route.ns cfg.numWorkers) (kindRoute ++ "/" ++ objKey route.ns route.name) "DELETE"]

/-- Route UpdateFunc: gated by `isRouteUpdated`, then identical to Add. -/
def routeUpdateFunc (cfg : Config) (oldRoute newRoute : RouteObj) : List Effect :=
  if cfg.disableSync then []
  else if isRouteUpdated oldRoute newRoute then
    if !(CheckIfNamespaceAccepted cfg newRoute.ns) then []
    else
      let key := kindRoute ++ "/" ++ objKey newRoute.ns newRoute.name
      (if !(HasValidBackends newRoute.spec) then
         [Effect.statusUpdate key newRoute.name newRoute.ns DuplicateBackends]
       else [])
        ++ [Effect.enqueue (Bkt newRoute.ns cfg.numWorkers) key "UPDATE"]
  else []

/-- Node AddFunc: bucketed by tenant. -/
def nodeAddFunc (cfg : Config) (node : NodeObj) : List Effect :=
  if cfg.disableSync then []
  else
    [Effect.enqueue (Bkt cfg.tenant cfg.numWorkers) (kindNode ++ "/" ++ node.name) "ADD"]

/-- Node DeleteFunc. -/
def nodeDeleteFunc (cfg : Config) (node : NodeObj) : List Effect :=
  if cfg.disableSync then []
  else
    [Effect.enqueue (Bkt cfg.tenant cfg.numWorkers) (kindNode ++ "/" ++ node.name) "DELETE"]

/-- Node UpdateFunc. -/
def nodeUpdateFunc (cfg : Config) (oldobj node : NodeObj) : List Effect :=
  if cfg.disableSync then []
  else if isNodeUpdated oldobj node then
    [Effect.enqueue (Bkt cfg.tenant cfg.numWorkers) (kindNode ++ "/" ++ node.name) "UPDATE"]
  else []

/-- IngressClass AddFunc. -/
def ingressClassAddFunc (cfg : Config) (ingClass : IngressClassObj) : List Effect :=
  if cfg.disableSync then []
  else
    [Effect.enqueue (Bkt ingClass.ns cfg.numWorkers) (kindIngressClass ++ "/" ++ objKey ingClass.ns ingClass.name) "ADD"]

/-- IngressClass DeleteFunc. -/
def ingressClassDeleteFunc (cfg : Config) (ingClass : IngressClassObj) : List Effect :=
  if cfg.disableSync then []
  else
    [Effect.enqueue (Bkt ingClass.ns cfg.numWorkers) (kindIngressClass ++ "/" ++ objKey ingClass.ns ingClass.name) "DELETE"]

/-- IngressClass UpdateFunc: admitted when the ResourceVersion differs. -/
def ingressClassUpdateFunc (cfg : Config) (oldobj ingClass : IngressClassObj) : List Effect :=
  if cfg.disableSync then []
  else if oldobj.resourceVersion != ingClass.resourceVersion then
    [Effect.enqueue (Bkt ingClass.ns cfg.numWorkers) (kindIngressClass ++ "/" ++ objKey ingClass.ns ingClass.name) "UPDATE"]
  else []

/-- Pod AddFunc (`AddPodEventHandler`). -/
def podAddFunc (cfg : Config) (pod : PodObj) : List Effect :=
  if cfg.disableSync then []
  else
    [Effect.enqueue (Bkt pod.ns cfg.numWorkers) (kindPod ++ "/" ++ objKey pod.ns pod.name) "ADD"]

/-- Pod DeleteFunc. -/
def podDeleteFunc (cfg : Config) (pod : PodObj) : List Effect :=
  if cfg.disableSync then []
  else
    [Effect.enqueue (Bkt pod.ns cfg.numWorkers) (kindPod ++ "/" ++ objKey pod.ns pod.name) "DELETE"]

/-- Pod UpdateFunc: admitted when the objects deep-differ; the key is built
from the OLD pod while the bucket namespace comes from the new one, as in the
source. -/
def podUpdateFunc (cfg : Config) (oldPod newPod : PodObj) : List Effect :=
  if cfg.disableSync then []
  else if newPod = oldPod then []
  else
    [Effect.enqueue (Bkt newPod.ns cfg.numWorkers) (kindPod ++ "/" ++ objKey oldPod.ns oldPod.name) "UPDATE"]

/-- Calico BlockAffinity AddFunc: the dynamic object's `spec.name` (absent
spec drops the event). -/
def blockAffinityAddFunc (cfg : Config) (specName : Option String) : List Effect :=
  if cfg.disableSync then []
  else
    match specName with
    | none => []
    | some n => [Effect.enqueue (Bkt cfg.tenant cfg.numWorkers) (kindNode ++ "/" ++ n) ""]

/-- Calico BlockAffinity DeleteFunc. -/
def blockAffinityDeleteFunc (cfg : Config) (specName : Option String) : List Effect :=
  if cfg.disableSync then []
  else
    match specName with
    | none => []
    | some n => [Effect.enqueue (Bkt cfg.tenant cfg.numWorkers) (kindNode ++ "/" ++ n) ""]

/-- OpenShift HostSubnet AddFunc: the dynamic object's `host`. -/
def hostSubnetAddFunc (cfg : Config) (host : Option String) : List Effect :=
  if cfg.disableSync then []
  else
    match host with
    | none => []
    | some h => [Effect.enqueue (Bkt cfg.tenant cfg.numWorkers) (kindNode ++ "/" ++ h) ""]

/-- OpenShift HostSubnet DeleteFunc. -/
def hostSubnetDeleteFunc (cfg : Config) (host : Option String) : List Effect :=
  if cfg.disableSync then []
  else
    match host with
    | none => []
    | some h => [Effect.enqueue (Bkt cfg.tenant cfg.numWorkers) (kindNode ++ "/" ++ h) ""]

/-- Modelled from the spec: the CRD and Gateway handler bodies
(`SetupAKOCRDEventHandlers`, `SetupAdvL4EventHandlers`,
`SetupSvcApiEventHandlers`) are outside `src/`; per the spec the `DisableSync`
check is applied uniformly at the entry of each handler of the per-kind
function table. -/
def crdHandlerFunc (cfg : Config) (kind ns name : String) : List Effect :=
  if cfg.disableSync then []
  else [Effect.enqueue (Bkt ns cfg.numWorkers) (kind ++ "/" ++ objKey ns name) ""]

/-! ## Namespace handler and per-namespace replays -/

/-- The watched cluster contents visible through the listers. -/
structure ClusterStores where
  ingresses : List IngressObj
  routes : List RouteObj
  services : List ServiceObj
  gateways : List GatewayObj
deriving DecidableEq

/-- `AddIngressFromNSToIngestionQueue`: every Ingress of the namespace is
enqueued with the replay message. -/
def AddIngressFromNSToIngestionQueue (cfg : Config) (stores : ClusterStores)
    (ns msg : String) : List Effect :=
  (stores.ingresses.filter (fun i => i.ns == ns)).map
    (fun i => Effect.enqueue (Bkt ns cfg.numWorkers) (kindIngress ++ "/" ++ objKey i.ns i.name) msg)

/-- `AddRoutesFromNSToIngestionQueue`. -/
def AddRoutesFromNSToIngestionQueue (cfg : Config) (stores : ClusterStores)
    (ns msg : String) : List Effect :=
  (stores.routes.filter (fun r => r.ns == ns)).map
    (fun r => Effect.enqueue (Bkt ns cfg.numWorkers) (kindRoute ++ "/" ++ objKey r.ns r.name) msg)

/-- The key a namespace-replay assigns to one service. -/
def svcNSReplayKey (cfg : Config) (s : ServiceObj) : String :=
  if isServiceLBType s && !cfg.layer7Only then kindL4LBService ++ "/" ++ objKey s.ns s.name
  else kindService ++ "/" ++ objKey s.ns s.name

/-- `AddServicesFromNSToIngestionQueue`: skipped entirely under advanced L4;
L4 LB services get an inline port-conflict check when the services API is in
use. -/
def AddServicesFromNSToIngestionQueue (cfg : Config) (stores : ClusterStores)
    (ns msg : String) : List Effect :=
  if cfg.advancedL4 then []
  else
    ((stores.services.filter (fun s => s.ns == ns)).map
      (fun s =>
        (if isServiceLBType s && !cfg.layer7Only && cfg.servicesAPI then
           [Effect.portConflictCheck (svcNSReplayKey cfg s)]
         else [])
          ++ [Effect.enqueue (Bkt ns cfg.numWorkers) (svcNSReplayKey cfg s) msg])).flatten

/-- `AddGatewaysFromNSToIngestionQueue`: status check then enqueue for every
Gateway of the namespace. -/
def AddGatewaysFromNSToIngestionQueue (cfg : Config) (stores : ClusterStores)
    (ns msg : String) : List Effect :=
  ((stores.gateways.filter (fun g => g.ns == ns)).map
    (fun g =>
      [Effect.gatewayStatusCheck (kindGateway ++ "/" ++ objKey g.ns g.name),
       Effect.enqueue (Bkt ns cfg.numWorkers) (kindGateway ++ "/" ++ objKey g.ns g.name) msg])).flatten

/-- The replay fan-out shared by both directions of the namespace Update
handler. -/
def nsReplayEffects (cfg : Config) (stores : ClusterStores) (ns msg : String) : List Effect :=
  (if cfg.hasIngressInformer then AddIngressFromNSToIngestionQueue cfg stores ns msg
   else if cfg.hasRouteInformer then AddRoutesFromNSToIngestionQueue cfg stores ns msg
   else [])
    ++ (if cfg.hasServiceInformer then AddServicesFromNSToIngestionQueue cfg stores ns msg else [])
    ++ (if cfg.servicesAPI then AddGatewaysFromNSToIngestionQueue cfg stores ns msg else [])

/-- Namespace AddFunc (`AddNamespaceEventHandler`): maintains the valid
namespace list only. -/
def nsAddFunc (cfg : Config) (ns : NamespaceObj) : List Effect :=
  if cfg.disableSync then []
  else if CheckIfNamespaceAcceptedWithLabels cfg ns.labels then
    [Effect.addNamespaceToFilter ns.name]
  else if CheckIfNamespaceAccepted cfg ns.name then
    [Effect.deleteNamespaceFromFilter ns.name]
  else []

/-- Namespace UpdateFunc: on an admitted update, an invalid→valid label
transition replays the namespace's objects with `NsFilterAdd`, a valid→invalid
transition with `NsFilterDelete`. -/
def nsUpdateFunc (cfg : Config) (stores : ClusterStores) (nsOld nsCur : NamespaceObj) : List Effect :=
  if cfg.disableSync then []
  else if isNamespaceUpdated nsOld nsCur then
    let oldNSAccepted := CheckIfNamespaceAcceptedWithLabels cfg nsOld.labels
    let newNSAccepted := CheckIfNamespaceAcceptedWithLabels cfg nsCur.labels
    if !oldNSAccepted && newNSAccepted then
      Effect.addNamespaceToFilter nsCur.name :: nsReplayEffects cfg stores nsCur.name NsFilterAdd
    else if oldNSAccepted && !newNSAccepted then
      Effect.deleteNamespaceFromFilter nsCur.name :: nsReplayEffects cfg stores nsCur.name NsFilterDelete
    else []
  else []

/-! ## DeleteModels (`ako_init.go`) -/

/-- The part of an `AviObjectGraph` that `DeleteModels` inspects: the `IsVrf`
flag and the node names (a fresh VRF-only graph gets one `AviVrfNode`). -/
structure AviModel where
  isVrf : Bool
  nodeNames : List String
deriving DecidableEq

/-- The VRF-only replacement graph built inside `DeleteModels`. -/
def vrfOnlyModel (vrf : String) : AviModel :=
  ⟨true, [vrf]⟩

/-- Modelled from the spec: `lib.AviObjDeletionTime` is 30 minutes (constants
file outside `src/`). -/
def aviObjDeletionTime : Nat := 30

/-- Modelled from the spec: StatefulSet condition values
(`lib.ObjectDeletionStartStatus` etc., constants outside `src/`). -/
def objectDeletionStartStatus : String := "ObjectDeletionStart"

def objectDeletionDoneStatus : String := "ObjectDeletionDone"

def objectDeletionTimeoutStatus : String := "ObjectDeletionTimeout"

/-- The `select` between `ConfigDeleteSyncChan` and the 30-minute timer:
given the minute at which the REST layer signals (if ever), the minutes
actually waited and whether the signal won the race. -/
def deleteModelsWaitResult (arrivalMinute : Option Nat) : Nat × Bool :=
  match arrivalMinute with
  | some t => if t < aviObjDeletionTime then (t, true) else (aviObjDeletionTime, false)
  | none => (aviObjDeletionTime, false)

/-- The graph `DeleteModels` saves for one lister entry: `Save(modelName, nil)`
always, then a VRF-only graph when the previous model had `IsVrf`. -/
def deletedGraphEntry (vrf : String) : Option AviModel → Option AviModel
  | some g => if g.isVrf then some (vrfOnlyModel vrf) else none
  | none => none

/-- The observable outcome of one `DeleteModels` run. -/
structure DeleteModelsResult where
  lister : List (String × Option AviModel)
  enqueued : List (Nat × String)
  statuses : List String
  waitedMinutes : Nat
  nplCleanup : Bool
deriving DecidableEq

/-- `DeleteModels`: overwrite every lister entry, enqueue every ModelName on
the shared (REST-facing) queue, then wait up to 30 minutes for the
`ConfigDeleteSyncChan` signal; the NPL-annotation cleanup runs afterwards
either way.  With an empty lister it reports Done immediately. -/
def DeleteModels (vrf : String) (graphWorkers : Nat) (autoAnnotateNPL : Bool)
    (lister : List (String × Option AviModel)) (arrivalMinute : Option Nat) : DeleteModelsResult :=
  if lister.isEmpty then
    ⟨lister, [], [objectDeletionStartStatus, objectDeletionDoneStatus], 0, false⟩
  else
    let wr := deleteModelsWaitResult arrivalMinute
    ⟨lister.map (fun p => (p.1, deletedGraphEntry vrf p.2)),
     lister.map (fun p => (Bkt p.1 graphWorkers, p.1)),
     [objectDeletionStartStatus,
      if wr.2 then objectDeletionDoneStatus else objectDeletionTimeoutStatus],
     wr.1,
     autoAnnotateNPL⟩

/-! ## FullSyncK8s (`ako_init.go`)

The full sync is modelled as the ordered trace of its externally visible
steps: ingestion-processing a key (`nodes.DequeueIngestion(key, true)`),
publishing a model to the REST-facing queue
(`nodes.PublishKeyToRestLayer(modelName, "fullsync", sharedQueue)`), the
20-second static-route wait, and the inline gateway status checks.
-/

inductive SyncStep where
  | processKey (key : String) : SyncStep
  | publishModel (modelName : String) : SyncStep
  | waitStaticRoute (received : Bool) (waitedSeconds : Nat) : SyncStep
  | statusCheck (key : String) : SyncStep
deriving DecidableEq

/-- Inputs of one `FullSyncK8s` run: flags, lister contents, the VS cache, and
the second at which `StaticRouteSyncChan` fires (if ever). -/
structure FullSyncInput where
  cfg : Config
  disableStaticRoute : Bool
  nodePortMode : Bool
  serviceTypeNPL : Bool
  vrfContext : String
  staticRouteSignalAt : Option Nat
  nodeNames : List String
  services : List ServiceObj
  pods : List PodObj
  hostRules : List (String × String)
  httpRules : List (String × String)
  infraSettings : List String
  ingresses : List IngressObj
  routes : List RouteObj
  gateways : List GatewayObj
  gatewayClasses : List String
  vsCacheKeys : List (String × String)
  graphListerModels : List String
  namespaceToSync : String
  shardVsPfx : String
deriving DecidableEq

/-- `lib.GetVrf`: the configured VRF context, defaulting to the global VRF. -/
def getVrf (inp : FullSyncInput) : String :=
  if inp.vrfContext == "" then "global" else inp.vrfContext

/-- Whether the static-route branch of the full sync runs (the negation of
`GetDisableStaticRoute() && !IsNodePortMode()`). -/
def staticRouteBranch (inp : FullSyncInput) : Bool :=
  !(inp.disableStaticRoute && !inp.nodePortMode)

/-- The `select` between `StaticRouteSyncChan` and the 20-second timer. -/
def staticRouteWaitResult (arrivalSecond : Option Nat) : Nat × Bool :=
  match arrivalSecond with
  | some t => if t < 20 then (t, true) else (20, false)
  | none => (20, false)

/-- The static-route phase: process every Node key, publish the vrfcontext
model, then wait on `StaticRouteSyncChan` with the 20 s timeout. -/
def staticRoutePhase (inp : FullSyncInput) : List SyncStep :=
  if staticRouteBranch inp then
    let wr := staticRouteWaitResult inp.staticRouteSignalAt
    (inp.nodeNames.map (fun n => SyncStep.processKey (kindNode ++ "/" ++ n)))
      ++ [SyncStep.publishModel (GetModelName inp.cfg.tenant (getVrf inp)),
          SyncStep.waitStaticRoute wr.2 wr.1]
  else []

/-- The full-sync service walk. -/
def servicePhase (inp : FullSyncInput) : List SyncStep :=
  (inp.services.map (fun s =>
    if isServiceLBType s && !inp.cfg.layer7Only then
      if !(IsServiceNSValid inp.cfg s.ns) then []
      else [SyncStep.processKey (kindL4LBService ++ "/" ++ objKey s.ns s.name)]
    else
      if inp.cfg.advancedL4 || !(CheckIfNamespaceAccepted inp.cfg s.ns) then []
      else [SyncStep.processKey (kindService ++ "/" ++ objKey s.ns s.name)])).flatten

/-- The full-sync pod walk (NodePortLocal mode only). -/
def podPhase (inp : FullSyncInput) : List SyncStep :=
  if inp.serviceTypeNPL then
    inp.pods.map (fun p => SyncStep.processKey (kindPod ++ "/" ++ objKey p.ns p.name))
  else []

/-- Modelled from the spec: CRD kind names (`lib.HostRule` etc., constants
outside `src/`). -/
def kindHostRule : String := "HostRule"

def kindHTTPRule : String := "HTTPRule"

def kindAviInfraSetting : String := "AviInfraSetting"

def kindGatewayClass : String := "GatewayClass"

/-- The full-sync CRD walk (HostRule, HTTPRule, AviInfraSetting). -/
def crdPhase (inp : FullSyncInput) : List SyncStep :=
  (inp.hostRules.map (fun h => SyncStep.processKey (kindHostRule ++ "/" ++ objKey h.1 h.2)))
    ++ (inp.httpRules.map (fun h => SyncStep.processKey (kindHTTPRule ++ "/" ++ objKey h.1 h.2)))
    ++ (inp.infraSettings.map (fun n => SyncStep.processKey (kindAviInfraSetting ++ "/" ++ n)))

/-- The full-sync Ingress walk (namespace-filtered). -/
def ingressPhase (inp : FullSyncInput) : List SyncStep :=
  if inp.cfg.hasIngressInformer then
    (inp.ingresses.filter (fun i => CheckIfNamespaceAccepted inp.cfg i.ns)).map
      (fun i => SyncStep.processKey (kindIngress ++ "/" ++ objKey i.ns i.name))
  else []

/-- The full-sync Route walk (namespace-filtered). -/
def routePhase (inp : FullSyncInput) : List SyncStep :=
  if inp.cfg.hasRouteInformer then
    (inp.routes.filter (fun r => CheckIfNamespaceAccepted inp.cfg r.ns)).map
      (fun r => SyncStep.processKey (kindRoute ++ "/" ++ objKey r.ns r.name))
  else []

/-- The services-API Gateway walk of the full sync. -/
def svcApiGatewayPhase (inp : FullSyncInput) : List SyncStep :=
  if inp.cfg.servicesAPI then
    ((inp.gateways.filter (fun g => CheckIfNamespaceAccepted inp.cfg g.ns)).map
      (fun g =>
        [SyncStep.statusCheck (kindGateway ++ "/" ++ objKey g.ns g.name),
         SyncStep.processKey (kindGateway ++ "/" ++ objKey g.ns g.name)])).flatten
      ++ (inp.gatewayClasses.map (fun n => SyncStep.processKey (kindGatewayClass ++ "/" ++ n)))
  else []

/-- The advanced-L4 Gateway walk of the full sync (no namespace filter). -/
def advL4GatewayPhase (inp : FullSyncInput) : List SyncStep :=
  ((inp.gateways.map (fun g =>
      [SyncStep.statusCheck (kindGateway ++ "/" ++ objKey g.ns g.name),
       SyncStep.processKey (kindGateway ++ "/" ++ objKey g.ns g.name)])).flatten)
    ++ (inp.gatewayClasses.map (fun n => SyncStep.processKey (kindGatewayClass ++ "/" ++ n)))

/-- The L7/CRD section: CRDs, Ingresses, Routes and services-API Gateways
outside advanced L4; Gateways/GatewayClasses only under advanced L4. -/
def l7Phase (inp : FullSyncInput) : List SyncStep :=
  if !inp.cfg.advancedL4 then
    crdPhase inp ++ ingressPhase inp ++ routePhase inp ++ svcApiGatewayPhase inp
  else advL4GatewayPhase inp

/-- Publish every cached parent VS model, removing it from the leftover list. -/
def cachePublishAll (vsKeys : List (String × String)) (allModels : List String) :
    List SyncStep × List String :=
  vsKeys.foldl
    (fun acc vk =>
      let mn := vk.1 ++ "/" ++ vk.2
      (acc.1 ++ [SyncStep.publishModel mn], acc.2.filter (fun m => m != mn)))
    ([], allModels)

/-- Namespace-scoped variant: only VS cache entries matching the shard prefix
or the `clusterName--namespace` prefix are published. -/
def cachePublishNamespaced (inp : FullSyncInput) (allModels : List String) :
    List SyncStep × List String :=
  inp.vsCacheKeys.foldl
    (fun acc vk =>
      let mn := vk.1 ++ "/" ++ vk.2
      let l7Hit := inp.shardVsPfx != "" && vk.2.startsWith inp.shardVsPfx
      let l4Hit := vk.2.startsWith (namePfxOf inp.cfg ++ inp.namespaceToSync)
      if l7Hit || l4Hit then
        (acc.1 ++ [SyncStep.publishModel mn], acc.2.filter (fun m => m != mn))
      else acc)
    ([], allModels)

/-- The tail of the full sync: publish all models present in the VS cache,
then the newly generated models that were not in the cache. -/
def cachePublishPhase (inp : FullSyncInput) : List SyncStep :=
  let vrfModelName :=
    if staticRouteBranch inp then GetModelName inp.cfg.tenant (getVrf inp) else ""
  let allModels := inp.graphListerModels.filter (fun m => m != vrfModelName)
  let sr :=
    if inp.namespaceToSync == "" then cachePublishAll inp.vsCacheKeys allModels
    else cachePublishNamespaced inp allModels
  sr.1 ++ sr.2.map SyncStep.publishModel

/-- `FullSyncK8s`: no work at all while `DisableSync` is set; otherwise the
static-route phase runs first, then services, pods, the L7/CRD section, and
the cache reconciliation. -/
def FullSyncK8s (inp : FullSyncInput) : List SyncStep :=
  if inp.cfg.disableSync then []
  else
    staticRoutePhase inp ++ servicePhase inp ++ podPhase inp ++ l7Phase inp
      ++ cachePublishPhase inp

/-! ## Concrete fixtures used by witnesses -/

/-- A configuration with sync enabled and no namespace filter. -/
def cfgOpen : Config :=
  { disableSync := false, advancedL4 := false, servicesAPI := false,
    layer7Only := false, evhEnabled := false, clusterName := "c1",
    akoNamespace := "avi-system", tenant := "admin",
    nsFilterKey := "", nsFilterValue := "", acceptedNamespaces := [],
    numWorkers := 1, hasIngressInformer := true, hasRouteInformer := false,
    hasServiceInformer := true }

/-! ## Helper lemmas -/

/-- Unfolding of the Ingress update predicate. -/
lemma isIngressUpdated_eq_true (o n : IngressObj) :
    isIngressUpdated o n = true ↔
      (o.resourceVersion ≠ n.resourceVersion ∧
        (fnv1a32 o.specStr ≠ fnv1a32 n.specStr ∨
          fnv1a32 o.annotationsStr ≠ fnv1a32 n.annotationsStr)) := by
  unfold isIngressUpdated
  by_cases h : o.resourceVersion = n.resourceVersion <;>
    simp [h, beq_iff_eq, bne_iff_ne, or_comm]

/-- Unfolding of the Route update predicate. -/
lemma isRouteUpdated_eq_true (o n : RouteObj) :
    isRouteUpdated o n = true ↔
      (o.resourceVersion ≠ n.resourceVersion ∧
        fnv1a32 (stringifyRouteSpec o.spec) ≠ fnv1a32 (stringifyRouteSpec n.spec)) := by
  unfold isRouteUpdated
  by_cases h : o.resourceVersion = n.resourceVersion <;>
    simp [h, beq_iff_eq, bne_iff_ne]

/-! ## Claim C1 -/

def routeOldC1 : RouteObj := ⟨"r1", "ns1", "100", ⟨"svc1", []⟩, "annotA"⟩

def routeNewC1 : RouteObj := ⟨"r1", "ns1", "101", ⟨"svc1", []⟩, "annotB"⟩

/-- Claim C1 (counterexample): a Route Update whose annotations hash changes
(and whose ResourceVersion changes) while the Spec hash is unchanged is NOT
admitted to the ingestion queue, although the claim requires admission when
the content hash of the Spec or of the annotations differs. -/
theorem C1_counterexample :
    routeUpdateFunc cfgOpen routeOldC1 routeNewC1 = []
      ∧ routeOldC1.resourceVersion ≠ routeNewC1.resourceVersion
      ∧ fnv1a32 routeOldC1.annotationsStr ≠ fnv1a32 routeNewC1.annotationsStr
      ∧ fnv1a32 (stringifyRouteSpec routeOldC1.spec) = fnv1a32 (stringifyRouteSpec routeNewC1.spec)
      ∧ cfgOpen.disableSync = false
      ∧ CheckIfNamespaceAccepted cfgOpen routeNewC1.ns = true := by
  decide

/-- Claim C1 (amended): for Update events delivered with sync enabled and an
accepted namespace, an Ingress Update is admitted to the ingestion queue iff
its ResourceVersion changed and the content hash of its Spec or of its
Annotations differs; a Route Update is admitted iff its ResourceVersion
changed and the content hash of its Spec differs (Route annotations are not
inspected). -/
theorem C1_update_admission (cfg : Config) (oldI newI : IngressObj) (oldR newR : RouteObj)
    (hds : cfg.disableSync = false)
    (hni : CheckIfNamespaceAccepted cfg newI.ns = true)
    (hnr : CheckIfNamespaceAccepted cfg newR.ns = true) :
    (hasIngestionEnqueue (ingressUpdateFunc cfg oldI newI) = true ↔
      (oldI.resourceVersion ≠ newI.resourceVersion ∧
        (fnv1a32 oldI.specStr ≠ fnv1a32 newI.specStr ∨
          fnv1a32 oldI.annotationsStr ≠ fnv1a32 newI.annotationsStr)))
    ∧ (hasIngestionEnqueue (routeUpdateFunc cfg oldR newR) = true ↔
      (oldR.resourceVersion ≠ newR.resourceVersion ∧
        fnv1a32 (stringifyRouteSpec oldR.spec) ≠ fnv1a32 (stringifyRouteSpec newR.spec))) := by
  constructor
  · rw [← isIngressUpdated_eq_true]
    unfold ingressUpdateFunc hasIngestionEnqueue
    cases h : isIngressUpdated oldI newI <;>
      simp [hds, hni, h, Effect.isIngestionEnqueue]
  · rw [← isRouteUpdated_eq_true]
    unfold routeUpdateFunc hasIngestionEnqueue
    cases h : isRouteUpdated oldR newR <;>
      cases hv : HasValidBackends newR.spec <;>
        simp [hds, hnr, h, hv, Effect.isIngestionEnqueue]

def ingOldW : IngressObj := ⟨"i1", "ns1", "10", "specA", "ann"⟩

def ingNewW : IngressObj := ⟨"i1", "ns1", "11", "specB", "ann"⟩

/-- Witness for C1_update_admission at concrete objects. -/
theorem C1_update_admission_witness :
    (hasIngestionEnqueue (ingressUpdateFunc cfgOpen ingOldW ingNewW) = true ↔
      (ingOldW.resourceVersion ≠ ingNewW.resourceVersion ∧
        (fnv1a32 ingOldW.specStr ≠ fnv1a32 ingNewW.specStr ∨
          fnv1a32 ingOldW.annotationsStr ≠ fnv1a32 ingNewW.annotationsStr)))
    ∧ (hasIngestionEnqueue (routeUpdateFunc cfgOpen routeOldC1 routeNewC1) = true ↔
      (routeOldC1.resourceVersion ≠ routeNewC1.resourceVersion ∧
        fnv1a32 (stringifyRouteSpec routeOldC1.spec) ≠ fnv1a32 (stringifyRouteSpec routeNewC1.spec))) :=
  C1_update_admission cfgOpen ingOldW ingNewW routeOldC1 routeNewC1
    (by decide) (by decide) (by decide)

/-! ## Claim C5 -/

/-- Claim C5: with sync enabled, a Secret Update is admitted to the ingestion
queue iff the Secret's Data deep-differs, its ResourceVersion differs, and the
Secret is not the controller's own auth secret (`avi-secret` in the AKO
namespace). -/
theorem C5_secret_update_admission (cfg : Config) (oldobj secret : SecretObj)
    (hds : cfg.disableSync = false) :
    hasIngestionEnqueue (secretUpdateFunc cfg oldobj secret) = true ↔
      (oldobj.resourceVersion ≠ secret.resourceVersion
        ∧ oldobj.dataStr ≠ secret.dataStr
        ∧ ¬(secret.ns = cfg.akoNamespace ∧ secret.name = AviSecret)) := by
  unfold secretUpdateFunc hasIngestionEnqueue validateAviSecret
  by_cases h1 : oldobj.resourceVersion = secret.resourceVersion <;>
    by_cases h2 : oldobj.dataStr = secret.dataStr <;>
      by_cases h3 : secret.ns = cfg.akoNamespace ∧ secret.name = AviSecret <;>
        simp [hds, h1, h2, h3, beq_iff_eq, bne_iff_ne, Effect.isIngestionEnqueue]

def secretOldW : SecretObj := ⟨"tls-cert", "ns1", "3", "dataA"⟩

def secretNewW : SecretObj := ⟨"tls-cert", "ns1", "4", "dataB"⟩

/-- Witness for C5_secret_update_admission at a concrete Secret. -/
theorem C5_secret_update_admission_witness :
    hasIngestionEnqueue (secretUpdateFunc cfgOpen secretOldW secretNewW) = true ↔
      (secretOldW.resourceVersion ≠ secretNewW.resourceVersion
        ∧ secretOldW.dataStr ≠ secretNewW.dataStr
        ∧ ¬(secretNewW.ns = cfgOpen.akoNamespace ∧ secretNewW.name = AviSecret)) :=
  C5_secret_update_admission cfgOpen secretOldW secretNewW (by decide)

/-! ## Claim C10 -/

def aviSecretObjOld : SecretObj := ⟨"avi-secret", "avi-system", "7", "d1"⟩

def aviSecretObjNew : SecretObj := ⟨"avi-secret", "avi-system", "8", "d2"⟩

/-- Claim C10: the own-auth-secret filter applies only to Secret Update and
Delete events; a Secret Add event for `avi-secret` in the AKO namespace is
enqueued (key `Secret/avi-system/avi-secret`), while the corresponding Update
(with changed ResourceVersion and Data) and Delete events are dropped. -/
theorem C10_aviSecret_add_not_filtered :
    secretAddFunc cfgOpen aviSecretObjOld =
      [Effect.enqueue 0 "Secret/avi-system/avi-secret" "ADD"]
      ∧ secretUpdateFunc cfgOpen aviSecretObjOld aviSecretObjNew = []
      ∧ aviSecretObjOld.resourceVersion ≠ aviSecretObjNew.resourceVersion
      ∧ aviSecretObjOld.dataStr ≠ aviSecretObjNew.dataStr
      ∧ secretDeleteFunc cfgOpen aviSecretObjOld = [] := by
  decide

/-! ## Claim C6 -/

/-- Whether every character of a string is a lowercase hex digit. -/
def hexIsLower (s : String) : Bool :=
  s.data.all (fun c => "0123456789abcdef".data.contains c)

/-- Every value below 16 maps to a lowercase hex digit. -/
lemma hexDigitChar_lower (n : Nat) (h : n < 16) :
    "0123456789abcdef".data.contains (hexDigitChar n) = true := by
  interval_cases n <;> decide

/-- Masking with 15 stays below 16. -/
lemma and15_lt (b : Nat) : b &&& 15 < 16 :=
  Nat.lt_of_le_of_lt Nat.and_le_right (by decide)

/-- Hex encoding produces only lowercase hex digits. -/
lemma hexBytesChars_lower (bs : List Nat) :
    (hexBytesChars bs).all (fun c => "0123456789abcdef".data.contains c) = true := by
  induction bs with
  | nil => decide
  | cons b rest ih =>
    simp only [hexBytesChars, List.all_cons, ih, Bool.and_true]
    rw [hexDigitChar_lower _ (and15_lt _), hexDigitChar_lower _ (and15_lt _)]
    decide

/-- The hex encoding of any byte list is lowercase. -/
lemma hexEncode_lower (bs : List Nat) : hexIsLower (hexEncode bs) = true := by
  unfold hexIsLower hexEncode
  exact hexBytesChars_lower bs

/-- Claim C6: with Enhanced Virtual Hosting enabled and advanced L4 disabled,
every name produced by `Encode` equals the cluster-name prefix
(`clusterName ++ "--"`) followed by the lowercase hex encoding of the SHA-1
hash of the raw name; with EVH disabled or advanced L4 enabled, `Encode`
returns the raw name unchanged.  `Encode` is a pure function of its inputs,
hence deterministic in the raw name. -/
theorem C6_encode (cfg : Config) (s : String) :
    (cfg.evhEnabled = true → cfg.advancedL4 = false →
      Encode cfg s = cfg.clusterName ++ "--" ++ hexEncode (sha1Bytes (strBytes s))
        ∧ hexIsLower (hexEncode (sha1Bytes (strBytes s))) = true)
    ∧ ((cfg.evhEnabled = false ∨ cfg.advancedL4 = true) → Encode cfg s = s) := by
  constructor
  · intro h1 h2
    refine ⟨?_, hexEncode_lower _⟩
    unfold Encode namePfxOf
    simp [h1, h2]
  · intro h
    unfold Encode
    rcases h with h | h <;> simp [h]

/-- A configuration with EVH enabled. -/
def cfgEvh : Config :=
  { cfgOpen with evhEnabled := true }

set_option maxRecDepth 100000 in
/-- Witness for C6_encode: the SHA-1 test vector for "abc". -/
theorem C6_encode_witness :
    Encode cfgEvh "abc" = "c1--a9993e364706816aba3e25717850c26c9cd0d89d"
      ∧ Encode cfgOpen "abc" = "abc" := by
  have h := C6_encode cfgEvh "abc"
  have h2 := C6_encode cfgOpen "abc"
  refine ⟨?_, h2.2 (Or.inl rfl)⟩
  rw [(h.1 rfl rfl).1]
  decide

/-! ## Claim C7 -/

/-- Modelled from the spec: the raw (never truncated) SNI pool name the
naming scheme prescribes — prefix, optional infra-setting token, namespace,
host, path with `/` replaced by `_`, ingress name and optional service
argument.  Reference definition for comparison with `GetSniPoolName`. -/
def sniPoolRawName (cfg : Config) (ingName ns host path infrasetting : String)
    (args : List String) : String :=
  let path2 := replaceSlash path
  let base :=
    if infrasetting != "" then
      cfg.clusterName ++ "--" ++ infrasetting ++ "-" ++ ns ++ "-" ++ host ++ path2 ++ "-" ++ ingName
    else
      cfg.clusterName ++ "--" ++ ns ++ "-" ++ host ++ path2 ++ "-" ++ ingName
  match args with
  | svcName :: _ => base ++ "-" ++ svcName
  | [] => base

/-- Claim C7: `CheckObjectNameLength` returns true exactly when the name's
length exceeds the 255-character maximum, an overlong derived name still
triggers the warning, and the name is emitted unchanged — `GetSniPoolName`
equals the raw un-truncated concatenation, and `Encode` (outside EVH) returns
even an overlong name unaltered. -/
theorem C7_overlong_names (cfg : Config)
    (name ingName ns host path infrasetting s : String) (args : List String)
    (hlong : goLen (GetSniPoolName cfg ingName ns host path infrasetting args) >
      AVI_OBJ_NAME_MAX_LENGTH) :
    (CheckObjectNameLength name = true ↔ goLen name > AVI_OBJ_NAME_MAX_LENGTH)
    ∧ CheckObjectNameLength (GetSniPoolName cfg ingName ns host path infrasetting args) = true
    ∧ GetSniPoolName cfg ingName ns host path infrasetting args =
        sniPoolRawName cfg ingName ns host path infrasetting args
    ∧ ((cfg.evhEnabled = false ∨ cfg.advancedL4 = true) → Encode cfg s = s) := by
  refine ⟨?_, ?_, rfl, ?_⟩
  · unfold CheckObjectNameLength
    exact decide_eq_true_iff
  · unfold CheckObjectNameLength
    exact decide_eq_true hlong
  · intro h
    unfold Encode
    rcases h with h | h <;> simp [h]

/-- A host name of 300 characters. -/
def longHostW : String := String.mk (List.replicate 300 'a')

set_option maxRecDepth 100000 in
/-- Witness for C7_overlong_names at a concrete overlong pool name. -/
theorem C7_overlong_names_witness :
    (CheckObjectNameLength "x" = true ↔ goLen "x" > AVI_OBJ_NAME_MAX_LENGTH)
    ∧ CheckObjectNameLength (GetSniPoolName cfgOpen "ing" "ns1" longHostW "/p" "" ["svc"]) = true
    ∧ GetSniPoolName cfgOpen "ing" "ns1" longHostW "/p" "" ["svc"] =
        sniPoolRawName cfgOpen "ing" "ns1" longHostW "/p" "" ["svc"]
    ∧ ((cfgOpen.evhEnabled = false ∨ cfgOpen.advancedL4 = true) →
        Encode cfgOpen longHostW = longHostW) :=
  C7_overlong_names cfgOpen "x" "ing" "ns1" longHostW "/p" "" longHostW ["svc"] (by decide)

/-! ## Claim C2 -/

/-- Claim C2: `DeleteModels` overwrites the graph of every ModelName in the
Graph Lister with the empty graph — or a VRF-only graph when the model's
`IsVrf` flag is set — enqueues each ModelName (on its hash bucket) for the
REST layer, and then waits up to `AviObjDeletionTime` (30 minutes) for the
completion signal; when the signal arrives in time the Done condition is set,
and on timeout the deletion-timeout condition is set on the StatefulSet and
the run continues (the NPL cleanup decision is still taken). -/
theorem C2_deleteModels (vrf : String) (gw : Nat) (npl : Bool)
    (lister : List (String × Option AviModel)) (arrival : Option Nat)
    (hne : lister ≠ []) :
    (∀ mn m, (mn, m) ∈ lister →
      (mn, deletedGraphEntry vrf m) ∈ (DeleteModels vrf gw npl lister arrival).lister
        ∧ (Bkt mn gw, mn) ∈ (DeleteModels vrf gw npl lister arrival).enqueued)
    ∧ (DeleteModels vrf gw npl lister arrival).waitedMinutes ≤ aviObjDeletionTime
    ∧ (∀ t, arrival = some t → t < aviObjDeletionTime →
        (DeleteModels vrf gw npl lister arrival).statuses =
          [objectDeletionStartStatus, objectDeletionDoneStatus])
    ∧ ((arrival = none ∨ ∃ t, arrival = some t ∧ aviObjDeletionTime ≤ t) →
        (DeleteModels vrf gw npl lister arrival).statuses =
          [objectDeletionStartStatus, objectDeletionTimeoutStatus]
          ∧ (DeleteModels vrf gw npl lister arrival).nplCleanup = npl) := by
  have hie : lister.isEmpty = false := by
    cases lister with
    | nil => exact absurd rfl hne
    | cons a l => rfl
  refine ⟨?_, ?_, ?_, ?_⟩
  · intro mn m hm
    constructor
    · unfold DeleteModels
      simp only [hie, Bool.false_eq_true, if_false]
      exact List.mem_map_of_mem _ hm
    · unfold DeleteModels
      simp only [hie, Bool.false_eq_true, if_false]
      exact List.mem_map_of_mem (fun p => (Bkt p.1 gw, p.1)) hm
  · unfold DeleteModels deleteModelsWaitResult
    simp only [hie, Bool.false_eq_true, if_false]
    cases arrival with
    | none => simp
    | some t =>
      by_cases h : t < aviObjDeletionTime <;> simp [h]
      omega
  · intro t ht hlt
    unfold DeleteModels deleteModelsWaitResult
    simp [hie, ht, hlt]
  · intro h
    unfold DeleteModels deleteModelsWaitResult
    rcases h with h | ⟨t, ht, hle⟩
    · simp [hie, h]
    · simp [hie, ht, Nat.not_lt.mpr hle]

/-- A two-model lister (one ordinary model, one VRF model). -/
def listerW : List (String × Option AviModel) :=
  [("admin/vs1", some ⟨false, ["pool1"]⟩), ("admin/vrfm", some ⟨true, ["global"]⟩)]

/-- Witness for C2_deleteModels: a concrete run with no REST signal. -/
theorem C2_deleteModels_witness :
    ("admin/vs1", deletedGraphEntry "global" (some ⟨false, ["pool1"]⟩)) ∈
        (DeleteModels "global" 8 false listerW none).lister
      ∧ (Bkt "admin/vs1" 8, "admin/vs1") ∈ (DeleteModels "global" 8 false listerW none).enqueued
      ∧ (DeleteModels "global" 8 false listerW none).statuses =
          [objectDeletionStartStatus, objectDeletionTimeoutStatus] := by
  have h := C2_deleteModels "global" 8 false listerW none (by decide)
  have hm := h.1 "admin/vs1" (some ⟨false, ["pool1"]⟩) (by decide)
  exact ⟨hm.1, hm.2, (h.2.2.2 (Or.inl rfl)).1⟩

/-! ## Claim C3 -/

/-- Claim C3: during a full sync with the static-route branch active, the
vrfcontext model is published (to the REST-facing queue) after only Node-key
processing and before any Service, Pod, CRD, Ingress, Route or Gateway key is
processed and before cache reconciliation; the wait on `StaticRouteSyncChan`
lasts at most 20 seconds, and when the signal does not arrive within 20
seconds the wait reports a timeout while the remainder of the sync still
follows in the trace. -/
theorem C3_fullSync_vrf_first (inp : FullSyncInput)
    (hds : inp.cfg.disableSync = false)
    (hsr : staticRouteBranch inp = true) :
    ∃ w r,
      FullSyncK8s inp =
        (inp.nodeNames.map (fun n => SyncStep.processKey (kindNode ++ "/" ++ n)))
          ++ SyncStep.publishModel (GetModelName inp.cfg.tenant (getVrf inp))
          :: SyncStep.waitStaticRoute r w
          :: (servicePhase inp ++ podPhase inp ++ l7Phase inp ++ cachePublishPhase inp)
        ∧ w ≤ 20
        ∧ (inp.staticRouteSignalAt = none → r = false ∧ w = 20)
        ∧ (∀ t, inp.staticRouteSignalAt = some t → 20 ≤ t → r = false ∧ w = 20) := by
  refine ⟨(staticRouteWaitResult inp.staticRouteSignalAt).1,
          (staticRouteWaitResult inp.staticRouteSignalAt).2, ?_, ?_, ?_, ?_⟩
  · unfold FullSyncK8s staticRoutePhase
    simp [hds, hsr, List.append_assoc]
  · unfold staticRouteWaitResult
    cases h : inp.staticRouteSignalAt with
    | none => simp
    | some t =>
      by_cases hlt : t < 20 <;> simp [hlt]
      omega
  · intro h
    simp [staticRouteWaitResult, h]
  · intro t ht hle
    simp [staticRouteWaitResult, ht, Nat.not_lt.mpr hle]

/-- A concrete full-sync input with one node, one LB service and one ingress,
and no static-route signal. -/
def fullSyncInpW : FullSyncInput :=
  { cfg := cfgOpen, disableStaticRoute := false, nodePortMode := false,
    serviceTypeNPL := false, vrfContext := "", staticRouteSignalAt := none,
    nodeNames := ["node1"],
    services := [⟨"svc1", "ns1", "1", "LoadBalancer", "ann"⟩],
    pods := [], hostRules := [], httpRules := [], infraSettings := [],
    ingresses := [⟨"i1", "ns1", "1", "sp", "an"⟩], routes := [], gateways := [],
    gatewayClasses := [], vsCacheKeys := [], graphListerModels := [],
    namespaceToSync := "", shardVsPfx := "" }

/-- Witness for C3_fullSync_vrf_first at the concrete input. -/
theorem C3_fullSync_vrf_first_witness :
    ∃ w r,
      FullSyncK8s fullSyncInpW =
        (fullSyncInpW.nodeNames.map (fun n => SyncStep.processKey (kindNode ++ "/" ++ n)))
          ++ SyncStep.publishModel (GetModelName fullSyncInpW.cfg.tenant (getVrf fullSyncInpW))
          :: SyncStep.waitStaticRoute r w
          :: (servicePhase fullSyncInpW ++ podPhase fullSyncInpW ++ l7Phase fullSyncInpW
              ++ cachePublishPhase fullSyncInpW)
        ∧ w ≤ 20
        ∧ (fullSyncInpW.staticRouteSignalAt = none → r = false ∧ w = 20)
        ∧ (∀ t, fullSyncInpW.staticRouteSignalAt = some t → 20 ≤ t → r = false ∧ w = 20) :=
  C3_fullSync_vrf_first fullSyncInpW (by decide) (by decide)

/-! ## Claim C8 -/

/-- Characterisation of the `HasValidBackends` accumulator loop. -/
lemma hasValidBackendsAux_eq_true (seen l : List String) :
    hasValidBackendsAux seen l = true ↔ (l.Nodup ∧ ∀ x ∈ l, x ∉ seen) := by
  induction l generalizing seen with
  | nil => simp [hasValidBackendsAux]
  | cons a rest ih =>
    unfold hasValidBackendsAux
    by_cases h : a ∈ seen
    · have hc : seen.contains a = true := by simpa using h
      simp only [hc, if_true]
      constructor
      · intro hfalse
        exact absurd hfalse (by simp)
      · rintro ⟨-, hall⟩
        exact absurd (hall a (List.mem_cons_self a rest)) (fun hn => hn h)
    · have hc : seen.contains a = false := by simpa using h
      simp only [hc, Bool.false_eq_true, if_false, ih]
      constructor
      · rintro ⟨hnd, hall⟩
        refine ⟨List.nodup_cons.mpr ⟨fun hm => ?_, hnd⟩, ?_⟩
        · exact hall a hm (List.mem_cons_self a seen)
        · intro x hx hxs
          rcases List.mem_cons.mp hx with h1 | h1
          · exact h (h1 ▸ hxs)
          · exact hall x h1 (List.mem_cons_of_mem a hxs)
      · rintro ⟨hnd, hall⟩
        rcases List.nodup_cons.mp hnd with ⟨hna, hndr⟩
        refine ⟨hndr, fun x hx hxs => ?_⟩
        rcases List.mem_cons.mp hxs with h1 | h1
        · exact hna (h1 ▸ hx)
        · exact hall x (List.mem_cons_of_mem a hx) h1

/-- `HasValidBackends` is false exactly on duplicated backend names. -/
lemma HasValidBackends_eq_false (sp : RouteSpec) :
    HasValidBackends sp = false ↔
      (sp.toSvc ∈ sp.alternateBackends ∨ ¬sp.alternateBackends.Nodup) := by
  have h := hasValidBackendsAux_eq_true [sp.toSvc] sp.alternateBackends
  unfold HasValidBackends
  constructor
  · intro hf
    by_contra hcon
    push_neg at hcon
    have : hasValidBackendsAux [sp.toSvc] sp.alternateBackends = true :=
      h.mpr ⟨hcon.2, fun x hx hxs => hcon.1 (List.mem_singleton.mp hxs ▸ hx)⟩
    simp [this] at hf
  · intro hd
    cases hb : hasValidBackendsAux [sp.toSvc] sp.alternateBackends
    · rfl
    · exfalso
      rcases h.mp hb with ⟨hnd, hall⟩
      rcases hd with hd | hd
      · exact hall _ hd (List.mem_singleton.mpr rfl)
      · exact hd hnd

/-- Claim C8: for a Route Add or (admitted) Update event whose spec contains
duplicate backend service names, `HasValidBackends` returns false, a
`DuplicateBackends` status error is published, and the Route key is still
enqueued on the ingestion queue. -/
theorem C8_duplicate_backends (cfg : Config) (oldRoute route : RouteObj)
    (hds : cfg.disableSync = false)
    (hns : CheckIfNamespaceAccepted cfg route.ns = true)
    (hdup : route.spec.toSvc ∈ route.spec.alternateBackends ∨
      ¬route.spec.alternateBackends.Nodup) :
    HasValidBackends route.spec = false
    ∧ routeAddFunc cfg route =
        [Effect.statusUpdate (kindRoute ++ "/" ++ objKey route.ns route.name)
           route.name route.ns DuplicateBackends,
         Effect.enqueue (Bkt route.ns cfg.numWorkers)
           (kindRoute ++ "/" ++ objKey route.ns route.name) "ADD"]
    ∧ (isRouteUpdated oldRoute route = true →
        routeUpdateFunc cfg oldRoute route =
          [Effect.statusUpdate (kindRoute ++ "/" ++ objKey route.ns route.name)
             route.name route.ns DuplicateBackends,
           Effect.enqueue (Bkt route.ns cfg.numWorkers)
             (kindRoute ++ "/" ++ objKey route.ns route.name) "UPDATE"]) := by
  have hv : HasValidBackends route.spec = false := (HasValidBackends_eq_false _).mpr hdup
  refine ⟨hv, ?_, ?_⟩
  · unfold routeAddFunc
    simp [hds, hns, hv]
  · intro hupd
    unfold routeUpdateFunc
    simp [hds, hns, hv, hupd]

def routeDupOld : RouteObj := ⟨"r2", "ns1", "20", ⟨"s1", []⟩, "a"⟩

def routeDupNew : RouteObj := ⟨"r2", "ns1", "21", ⟨"s1", ["s1"]⟩, "a"⟩

/-- Witness for C8_duplicate_backends at a Route whose alternate backend
repeats the primary backend. -/
theorem C8_duplicate_backends_witness :
    HasValidBackends routeDupNew.spec = false
    ∧ routeAddFunc cfgOpen routeDupNew =
        [Effect.statusUpdate (kindRoute ++ "/" ++ objKey routeDupNew.ns routeDupNew.name)
           routeDupNew.name routeDupNew.ns DuplicateBackends,
         Effect.enqueue (Bkt routeDupNew.ns cfgOpen.numWorkers)
           (kindRoute ++ "/" ++ objKey routeDupNew.ns routeDupNew.name) "ADD"]
    ∧ (isRouteUpdated routeDupOld routeDupNew = true →
        routeUpdateFunc cfgOpen routeDupOld routeDupNew =
          [Effect.statusUpdate (kindRoute ++ "/" ++ objKey routeDupNew.ns routeDupNew.name)
             routeDupNew.name routeDupNew.ns DuplicateBackends,
           Effect.enqueue (Bkt routeDupNew.ns cfgOpen.numWorkers)
             (kindRoute ++ "/" ++ objKey routeDupNew.ns routeDupNew.name) "UPDATE"]) :=
  C8_duplicate_backends cfgOpen routeDupOld routeDupNew (by decide) (by decide)
    (Or.inl (by decide))

/-! ## Claim C9 -/

/-- Claim C9: with the `DisableSync` flag set, every informer event handler
(Add, Update and Delete, for every watched kind embedded from
`SetupEventHandlers`, plus the spec-modelled CRD/Gateway handler) returns
without effects — in particular nothing is enqueued onto the ingestion
queue — and `FullSyncK8s` performs no work. -/
theorem C9_disableSync_gate (cfg : Config) (hds : cfg.disableSync = true) :
    (∀ ep, epAddFunc cfg ep = []) ∧ (∀ ep, epDeleteFunc cfg ep = [])
    ∧ (∀ o n, epUpdateFunc cfg o n = [])
    ∧ (∀ s, svcAddFunc cfg s = []) ∧ (∀ s, svcDeleteFunc cfg s = [])
    ∧ (∀ o n, svcUpdateFunc cfg o n = [])
    ∧ (∀ s, secretAddFunc cfg s = []) ∧ (∀ s, secretDeleteFunc cfg s = [])
    ∧ (∀ o n, secretUpdateFunc cfg o n = [])
    ∧ (∀ i, ingressAddFunc cfg i = []) ∧ (∀ i, ingressDeleteFunc cfg i = [])
    ∧ (∀ o n, ingressUpdateFunc cfg o n = [])
    ∧ (∀ r, routeAddFunc cfg r = []) ∧ (∀ r, routeDeleteFunc cfg r = [])
    ∧ (∀ o n, routeUpdateFunc cfg o n = [])
    ∧ (∀ nd, nodeAddFunc cfg nd = []) ∧ (∀ nd, nodeDeleteFunc cfg nd = [])
    ∧ (∀ o n, nodeUpdateFunc cfg o n = [])
    ∧ (∀ ic, ingressClassAddFunc cfg ic = []) ∧ (∀ ic, ingressClassDeleteFunc cfg ic = [])
    ∧ (∀ o n, ingressClassUpdateFunc cfg o n = [])
    ∧ (∀ p, podAddFunc cfg p = []) ∧ (∀ p, podDeleteFunc cfg p = [])
    ∧ (∀ o n, podUpdateFunc cfg o n = [])
    ∧ (∀ ns, nsAddFunc cfg ns = []) ∧ (∀ st o n, nsUpdateFunc cfg st o n = [])
    ∧ (∀ sn, blockAffinityAddFunc cfg sn = []) ∧ (∀ sn, blockAffinityDeleteFunc cfg sn = [])
    ∧ (∀ h, hostSubnetAddFunc cfg h = []) ∧ (∀ h, hostSubnetDeleteFunc cfg h = [])
    ∧ (∀ k ns n, crdHandlerFunc cfg k ns n = [])
    ∧ (∀ inp : FullSyncInput, inp.cfg.disableSync = true → FullSyncK8s inp = []) := by
  repeat' apply And.intro
  all_goals intros
  all_goals
    simp_all [epAddFunc, epDeleteFunc, epUpdateFunc, svcAddFunc, svcDeleteFunc, svcUpdateFunc,
      secretAddFunc, secretDeleteFunc, secretUpdateFunc, ingressAddFunc, ingressDeleteFunc,
      ingressUpdateFunc, routeAddFunc, routeDeleteFunc, routeUpdateFunc, nodeAddFunc,
      nodeDeleteFunc, nodeUpdateFunc, ingressClassAddFunc, ingressClassDeleteFunc,
      ingressClassUpdateFunc, podAddFunc, podDeleteFunc, podUpdateFunc, nsAddFunc, nsUpdateFunc,
      blockAffinityAddFunc, blockAffinityDeleteFunc, hostSubnetAddFunc, hostSubnetDeleteFunc,
      crdHandlerFunc, FullSyncK8s]

/-- A configuration with sync disabled. -/
def cfgDisabled : Config :=
  { cfgOpen with disableSync := true }

/-- Witness for C9_disableSync_gate: a concrete dropped event. -/
theorem C9_disableSync_gate_witness :
    epAddFunc cfgDisabled ⟨"ep1", "ns1", "1", "subsets"⟩ = [] :=
  (C9_disableSync_gate cfgDisabled rfl).1 ⟨"ep1", "ns1", "1", "subsets"⟩

/-! ## Claim C4 -/

/-- Unfolding of the Namespace update predicate. -/
lemma isNamespaceUpdated_eq_true (o n : NamespaceObj) :
    isNamespaceUpdated o n = true ↔
      (o.resourceVersion ≠ n.resourceVersion ∧
        fnv1a32 (stringifyLabels o.labels) ≠ fnv1a32 (stringifyLabels n.labels)) := by
  unfold isNamespaceUpdated
  by_cases h : o.resourceVersion = n.resourceVersion <;>
    simp [h, beq_iff_eq, bne_iff_ne]

/-- Every Ingress of the namespace appears in the Ingress replay. -/
lemma mem_ingress_replay (cfg : Config) (stores : ClusterStores) (ns msg : String)
    (i : IngressObj) (hi : i ∈ stores.ingresses) (hns : i.ns = ns) :
    Effect.enqueue (Bkt ns cfg.numWorkers) (kindIngress ++ "/" ++ objKey i.ns i.name) msg
      ∈ AddIngressFromNSToIngestionQueue cfg stores ns msg := by
  unfold AddIngressFromNSToIngestionQueue
  exact List.mem_map_of_mem _ (List.mem_filter.mpr ⟨hi, by simp [hns]⟩)

/-- Every Route of the namespace appears in the Route replay. -/
lemma mem_route_replay (cfg : Config) (stores : ClusterStores) (ns msg : String)
    (r : RouteObj) (hr : r ∈ stores.routes) (hns : r.ns = ns) :
    Effect.enqueue (Bkt ns cfg.numWorkers) (kindRoute ++ "/" ++ objKey r.ns r.name) msg
      ∈ AddRoutesFromNSToIngestionQueue cfg stores ns msg := by
  unfold AddRoutesFromNSToIngestionQueue
  exact List.mem_map_of_mem _ (List.mem_filter.mpr ⟨hr, by simp [hns]⟩)

/-- Every Service of the namespace appears in the Service replay (advanced L4
off). -/
lemma mem_service_replay (cfg : Config) (stores : ClusterStores) (ns msg : String)
    (s : ServiceObj) (hadv : cfg.advancedL4 = false)
    (hs : s ∈ stores.services) (hns : s.ns = ns) :
    Effect.enqueue (Bkt ns cfg.numWorkers) (svcNSReplayKey cfg s) msg
      ∈ AddServicesFromNSToIngestionQueue cfg stores ns msg := by
  unfold AddServicesFromNSToIngestionQueue
  simp only [hadv, Bool.false_eq_true, if_false]
  refine List.mem_flatten.mpr ⟨_, List.mem_map_of_mem _ (List.mem_filter.mpr ⟨hs, by simp [hns]⟩), ?_⟩
  exact List.mem_append_right _ (List.mem_singleton.mpr rfl)

/-- Every Gateway of the namespace appears in the Gateway replay. -/
lemma mem_gateway_replay (cfg : Config) (stores : ClusterStores) (ns msg : String)
    (g : GatewayObj) (hg : g ∈ stores.gateways) (hns : g.ns = ns) :
    Effect.enqueue (Bkt ns cfg.numWorkers) (kindGateway ++ "/" ++ objKey g.ns g.name) msg
      ∈ AddGatewaysFromNSToIngestionQueue cfg stores ns msg := by
  unfold AddGatewaysFromNSToIngestionQueue
  refine List.mem_flatten.mpr ⟨_, List.mem_map_of_mem _ (List.mem_filter.mpr ⟨hg, by simp [hns]⟩), ?_⟩
  simp

/-- Membership in the full replay fan-out. -/
lemma mem_nsReplayEffects (cfg : Config) (stores : ClusterStores) (ns msg : String) :
    (cfg.hasIngressInformer = true →
      ∀ i ∈ stores.ingresses, i.ns = ns →
        Effect.enqueue (Bkt ns cfg.numWorkers) (kindIngress ++ "/" ++ objKey i.ns i.name) msg
          ∈ nsReplayEffects cfg stores ns msg)
    ∧ (cfg.hasIngressInformer = false → cfg.hasRouteInformer = true →
      ∀ r ∈ stores.routes, r.ns = ns →
        Effect.enqueue (Bkt ns cfg.numWorkers) (kindRoute ++ "/" ++ objKey r.ns r.name) msg
          ∈ nsReplayEffects cfg stores ns msg)
    ∧ (cfg.hasServiceInformer = true → cfg.advancedL4 = false →
      ∀ s ∈ stores.services, s.ns = ns →
        Effect.enqueue (Bkt ns cfg.numWorkers) (svcNSReplayKey cfg s) msg
          ∈ nsReplayEffects cfg stores ns msg)
    ∧ (cfg.servicesAPI = true →
      ∀ g ∈ stores.gateways, g.ns = ns →
        Effect.enqueue (Bkt ns cfg.numWorkers) (kindGateway ++ "/" ++ objKey g.ns g.name) msg
          ∈ nsReplayEffects cfg stores ns msg) := by
  refine ⟨?_, ?_, ?_, ?_⟩
  · intro hing i hi hns
    unfold nsReplayEffects
    simp only [hing, if_true]
    exact List.mem_append_left _ (List.mem_append_left _ (mem_ingress_replay cfg stores ns msg i hi hns))
  · intro hing hrt r hr hns
    unfold nsReplayEffects
    simp only [hing, hrt, Bool.false_eq_true, if_false, if_true]
    exact List.mem_append_left _ (List.mem_append_left _ (mem_route_replay cfg stores ns msg r hr hns))
  · intro hsvc hadv s hs hns
    unfold nsReplayEffects
    simp only [hsvc, if_true]
    exact List.mem_append_left _
      (List.mem_append_right _ (mem_service_replay cfg stores ns msg s hadv hs hns))
  · intro hapi g hg hns
    unfold nsReplayEffects
    simp only [hapi, if_true]
    exact List.mem_append_right _ (mem_gateway_replay cfg stores ns msg g hg hns)

/-- A configuration with a namespace label filter `env=prod`. -/
def cfgFilter : Config :=
  { cfgOpen with nsFilterKey := "env", nsFilterValue := "prod" }

def storesC4 : ClusterStores :=
  { ingresses := [⟨"i1", "ns1", "1", "sp", "an"⟩], routes := [],
    services := [⟨"svc1", "ns1", "1", "LoadBalancer", "an"⟩], gateways := [] }

def nsOldC4 : NamespaceObj := ⟨"ns1", "5", [("env", "dev")]⟩

def nsNewC4 : NamespaceObj := ⟨"ns1", "5", [("env", "prod")]⟩

/-- Claim C4 (counterexample): a Namespace Update event whose labels change
from not matching the filter to matching it but whose ResourceVersion is
unchanged is dropped entirely — nothing of the non-empty namespace content is
enqueued, although the claim requires the replay. -/
theorem C4_counterexample :
    nsUpdateFunc cfgFilter storesC4 nsOldC4 nsNewC4 = []
      ∧ CheckIfNamespaceAcceptedWithLabels cfgFilter nsOldC4.labels = false
      ∧ CheckIfNamespaceAcceptedWithLabels cfgFilter nsNewC4.labels = true
      ∧ nsOldC4.labels ≠ nsNewC4.labels
      ∧ nsOldC4.resourceVersion = nsNewC4.resourceVersion
      ∧ cfgFilter.disableSync = false
      ∧ storesC4.ingresses ≠ [] := by
  decide

/-- Claim C4 (amended): for a Namespace Update event whose ResourceVersion
changes and whose label content hash changes, with sync enabled and outside
advanced L4 (where no namespace handler is installed): on an invalid→valid
label transition the handler emits exactly the namespace-filter addition
followed by the replay fan-out, which enqueues every Ingress (when the
Ingress informer is active; otherwise every Route), every Service, and — when
the services API is in use — every Gateway of that namespace with the
`NsFilterAdd` annotation; a valid→invalid transition emits the same set with
`NsFilterDelete`. -/
theorem C4_namespace_label_flip (cfg : Config) (stores : ClusterStores)
    (nsOld nsCur : NamespaceObj)
    (hds : cfg.disableSync = false)
    (hadv : cfg.advancedL4 = false)
    (hrv : nsOld.resourceVersion ≠ nsCur.resourceVersion)
    (hhash : fnv1a32 (stringifyLabels nsOld.labels) ≠ fnv1a32 (stringifyLabels nsCur.labels)) :
    (CheckIfNamespaceAcceptedWithLabels cfg nsOld.labels = false →
      CheckIfNamespaceAcceptedWithLabels cfg nsCur.labels = true →
      nsUpdateFunc cfg stores nsOld nsCur =
        Effect.addNamespaceToFilter nsCur.name
          :: nsReplayEffects cfg stores nsCur.name NsFilterAdd
        ∧ (cfg.hasIngressInformer = true →
            ∀ i ∈ stores.ingresses, i.ns = nsCur.name →
              Effect.enqueue (Bkt nsCur.name cfg.numWorkers)
                  (kindIngress ++ "/" ++ objKey i.ns i.name) NsFilterAdd
                ∈ nsUpdateFunc cfg stores nsOld nsCur)
        ∧ (cfg.hasIngressInformer = false → cfg.hasRouteInformer = true →
            ∀ r ∈ stores.routes, r.ns = nsCur.name →
              Effect.enqueue (Bkt nsCur.name cfg.numWorkers)
                  (kindRoute ++ "/" ++ objKey r.ns r.name) NsFilterAdd
                ∈ nsUpdateFunc cfg stores nsOld nsCur)
        ∧ (cfg.hasServiceInformer = true →
            ∀ s ∈ stores.services, s.ns = nsCur.name →
              Effect.enqueue (Bkt nsCur.name cfg.numWorkers) (svcNSReplayKey cfg s) NsFilterAdd
                ∈ nsUpdateFunc cfg stores nsOld nsCur)
        ∧ (cfg.servicesAPI = true →
            ∀ g ∈ stores.gateways, g.ns = nsCur.name →
              Effect.enqueue (Bkt nsCur.name cfg.numWorkers)
                  (kindGateway ++ "/" ++ objKey g.ns g.name) NsFilterAdd
                ∈ nsUpdateFunc cfg stores nsOld nsCur))
    ∧ (CheckIfNamespaceAcceptedWithLabels cfg nsOld.labels = true →
      CheckIfNamespaceAcceptedWithLabels cfg nsCur.labels = false →
      nsUpdateFunc cfg stores nsOld nsCur =
        Effect.deleteNamespaceFromFilter nsCur.name
          :: nsReplayEffects cfg stores nsCur.name NsFilterDelete
        ∧ (cfg.hasIngressInformer = true →
            ∀ i ∈ stores.ingresses, i.ns = nsCur.name →
              Effect.enqueue (Bkt nsCur.name cfg.numWorkers)
                  (kindIngress ++ "/" ++ objKey i.ns i.name) NsFilterDelete
                ∈ nsUpdateFunc cfg stores nsOld nsCur)
        ∧ (cfg.hasServiceInformer = true →
            ∀ s ∈ stores.services, s.ns = nsCur.name →
              Effect.enqueue (Bkt nsCur.name cfg.numWorkers) (svcNSReplayKey cfg s) NsFilterDelete
                ∈ nsUpdateFunc cfg stores nsOld nsCur)) := by
  have hupd : isNamespaceUpdated nsOld nsCur = true :=
    (isNamespaceUpdated_eq_true nsOld nsCur).mpr ⟨hrv, hhash⟩
  constructor
  · intro hold hnew
    have heq : nsUpdateFunc cfg stores nsOld nsCur =
        Effect.addNamespaceToFilter nsCur.name
          :: nsReplayEffects cfg stores nsCur.name NsFilterAdd := by
      unfold nsUpdateFunc
      simp [hds, hupd, hold, hnew]
    have hmem := mem_nsReplayEffects cfg stores nsCur.name NsFilterAdd
    refine ⟨heq, ?_, ?_, ?_, ?_⟩
    · intro hing i hi hns
      rw [heq]
      exact List.mem_cons_of_mem _ (hmem.1 hing i hi hns)
    · intro hing hrt r hr hns
      rw [heq]
      exact List.mem_cons_of_mem _ (hmem.2.1 hing hrt r hr hns)
    · intro hsvc s hs hns
      rw [heq]
      exact List.mem_cons_of_mem _ (hmem.2.2.1 hsvc hadv s hs hns)
    · intro hapi g hg hns
      rw [heq]
      exact List.mem_cons_of_mem _ (hmem.2.2.2 hapi g hg hns)
  · intro hold hnew
    have heq : nsUpdateFunc cfg stores nsOld nsCur =
        Effect.deleteNamespaceFromFilter nsCur.name
          :: nsReplayEffects cfg stores nsCur.name NsFilterDelete := by
      unfold nsUpdateFunc
      simp [hds, hupd, hold, hnew]
    have hmem := mem_nsReplayEffects cfg stores nsCur.name NsFilterDelete
    refine ⟨heq, ?_, ?_⟩
    · intro hing i hi hns
      rw [heq]
      exact List.mem_cons_of_mem _ (hmem.1 hing i hi hns)
    · intro hsvc s hs hns
      rw [heq]
      exact List.mem_cons_of_mem _ (hmem.2.2.1 hsvc hadv s hs hns)

def nsNewC4b : NamespaceObj := ⟨"ns1", "6", [("env", "prod")]⟩

/-- Witness for C4_namespace_label_flip: the concrete invalid→valid flip
enqueues the namespace's ingress and service with NsFilterAdd. -/
theorem C4_namespace_label_flip_witness :
    Effect.enqueue (Bkt "ns1" 1) "Ingress/ns1/i1" NsFilterAdd
        ∈ nsUpdateFunc cfgFilter storesC4 nsOldC4 nsNewC4b
      ∧ Effect.enqueue (Bkt "ns1" 1) "L4LBService/ns1/svc1" NsFilterAdd
        ∈ nsUpdateFunc cfgFilter storesC4 nsOldC4 nsNewC4b := by
  have h := (C4_namespace_label_flip cfgFilter storesC4 nsOldC4 nsNewC4b
    (by decide) (by decide) (by decide) (by decide)).1 (by decide) (by decide)
  exact ⟨h.2.1 rfl ⟨"i1", "ns1", "1", "sp", "an"⟩ (by decide) rfl,
         h.2.2.2.1 rfl ⟨"svc1", "ns1", "1", "LoadBalancer", "an"⟩ (by decide) rfl⟩

end AKO
